import Mathlib

/-!
Verification of the CAMSim flight-dynamics simulator core (Go sources).

Shallow embedding conventions:
* Go `float64` values are modelled as real numbers (`ℝ`); the hand-rolled
  rational "math helpers" of the source (`pow`, `sin`, ... in
  jsbsimxmlparser.go) are translated literally, so they stay inside field
  arithmetic.  `math.Sqrt` is `Real.sqrt`.
* Go maps (`map[string]float64`, `map[string]string`) are modelled as
  association lists with replace-or-append insertion; map membership tests
  (`v, ok := m[k]`) become `Option`-valued lookups.  Go map *iteration*
  carries no order guarantee, so a loop over a map is modelled as a loop
  over one enumeration of it (see `FlightControlSystem.Execute`).
* Go methods that mutate their receiver become functions returning the
  updated value; fallible Go functions returning `(float64, error)` become
  `Except String ℝ`.
* Wall-clock bookkeeping (`time.Time` stamps, execution-time statistics)
  and the asynchronous property-change listeners (fire-and-forget logging
  goroutines that never write back into the store) are dropped: they do not
  influence any value the claims observe.
* `math.Inf(1)`, used only as the actuator's "no rate limit" default, is
  modelled by `Option ℝ` (`Option.none` = +∞).
-/

namespace CAMSim

noncomputable section

/-- Association-list lookup standing for a Go map read `v, ok := m[k]`
(`Option.none` = key absent).  Written with `if k = s` so that concrete
lookups reduce by `simp`. -/
def lookupGo {α : Type} (s : String) : List (String × α) → Option α
  | [] => Option.none
  | (k, v) :: rest => if k = s then Option.some v else lookupGo s rest

/-- Association-list insert standing for a Go map write `m[k] = v`:
replace the binding if the key is present, append it otherwise. -/
def insertGo {α : Type} (k : String) (v : α) : List (String × α) → List (String × α)
  | [] => [(k, v)]
  | (k0, v0) :: rest => if k0 = k then (k0, v) :: rest else (k0, v0) :: insertGo k v rest

/-! ## Math primitives (src/aircraft_state.go) -/

/-- Go `Vector3` (src/aircraft_state.go). -/
structure Vector3 where
  x : ℝ
  y : ℝ
  z : ℝ

/-- Go `Vector3.Add`. -/
def Vector3.Add (v other : Vector3) : Vector3 :=
  ⟨v.x + other.x, v.y + other.y, v.z + other.z⟩

/-- Go `Vector3.Scale`. -/
def Vector3.Scale (v : Vector3) (scalar : ℝ) : Vector3 :=
  ⟨v.x * scalar, v.y * scalar, v.z * scalar⟩

/-- Go `Vector3.Magnitude` (`math.Sqrt(x*x + y*y + z*z)`). -/
def Vector3.Magnitude (v : Vector3) : ℝ :=
  Real.sqrt (v.x * v.x + v.y * v.y + v.z * v.z)

/-- Go `Vector3.Normalize`: the zero-magnitude guard returns the zero
vector, every other vector is divided componentwise by its magnitude. -/
def Vector3.Normalize (v : Vector3) : Vector3 :=
  let mag := v.Magnitude
  if mag = 0 then ⟨0, 0, 0⟩ else ⟨v.x / mag, v.y / mag, v.z / mag⟩

/-- Go `Vector3.Dot`. -/
def Vector3.Dot (v other : Vector3) : ℝ :=
  v.x * other.x + v.y * other.y + v.z * other.z

/-- Go `Vector3.Cross`. -/
def Vector3.Cross (v other : Vector3) : Vector3 :=
  ⟨v.y * other.z - v.z * other.y, v.z * other.x - v.x * other.z,
   v.x * other.y - v.y * other.x⟩

/-- Go `Quaternion` (src/aircraft_state.go). -/
structure Quaternion where
  w : ℝ
  x : ℝ
  y : ℝ
  z : ℝ

/-- Go `Quaternion.Multiply` (Hamilton product, exactly the four source
component formulas). -/
def Quaternion.Multiply (q other : Quaternion) : Quaternion :=
  ⟨q.w * other.w - q.x * other.x - q.y * other.y - q.z * other.z,
   q.w * other.x + q.x * other.w + q.y * other.z - q.z * other.y,
   q.w * other.y - q.x * other.z + q.y * other.w + q.z * other.x,
   q.w * other.z + q.x * other.y - q.y * other.x + q.z * other.w⟩

/-- The quaternion norm `math.Sqrt(w*w + x*x + y*y + z*z)` computed inside
Go `Quaternion.Normalize`. -/
def Quaternion.norm (q : Quaternion) : ℝ :=
  Real.sqrt (q.w * q.w + q.x * q.x + q.y * q.y + q.z * q.z)

/-- Go `Quaternion.Normalize`: the zero-norm guard returns the identity
quaternion `(1,0,0,0)`, every other quaternion is divided componentwise by
its norm. -/
def Quaternion.Normalize (q : Quaternion) : Quaternion :=
  let n := q.norm
  if n = 0 then ⟨1, 0, 0, 0⟩ else ⟨q.w / n, q.x / n, q.y / n, q.z / n⟩

/-- Go `Quaternion.RotateVector` (`v' = q * v * q⁻¹` with the conjugate as
inverse, exactly as the source computes it). -/
def Quaternion.RotateVector (q : Quaternion) (v : Vector3) : Vector3 :=
  let qv : Quaternion := ⟨0, v.x, v.y, v.z⟩
  let qConj : Quaternion := ⟨q.w, -q.x, -q.y, -q.z⟩
  let result := (q.Multiply qv).Multiply qConj
  ⟨result.x, result.y, result.z⟩

/-- Go `Quaternion.Add` (src/integration_engine.go). -/
def Quaternion.Add (q other : Quaternion) : Quaternion :=
  ⟨q.w + other.w, q.x + other.x, q.y + other.y, q.z + other.z⟩

/-- Go `Quaternion.Scale` (src/integration_engine.go). -/
def Quaternion.Scale (q : Quaternion) (scalar : ℝ) : Quaternion :=
  ⟨q.w * scalar, q.x * scalar, q.y * scalar, q.z * scalar⟩

/-! ## Table engine (src/jsbsimxmlparser.go)

The string parsing of `tableData` text is not needed by any claim; the
embedding starts from the parsed artifacts `Table1D` / `Table2D` that
`ParseTable` produces.  `ParseTable` sets `Dimension` to the number of
independent variables when that number is 1, 2 or 3 (leaving it 0
otherwise) and fills exactly the matching data field, so the dimension
discriminant and the data are represented together by `ParsedData`. -/

/-- Go `Table1D`: parallel arrays of breakpoints and values. -/
structure Table1D where
  indices : List ℝ
  values : List ℝ

/-- Go `Table2D`. -/
structure Table2D where
  breakpoint : ℝ
  rowIndices : List ℝ
  colIndices : List ℝ
  data : List (List ℝ)

/-- The `Dimension`/`Data1D`/`Data2D`/`Data3D` fields of Go `ParsedTable`,
merged into one discriminated value (`ParseTable` always sets them
consistently).  `nodata` is `Dimension = 0`, produced for 0 or more than 3
independent variables. -/
inductive ParsedData : Type where
  | nodata : ParsedData
  | oneD (t : Table1D) : ParsedData
  | twoD (t : Table2D) : ParsedData
  | threeD (slices : List Table2D) : ParsedData

/-- A parsed `<table>` as the expression evaluator consumes it: the
independent-variable property names plus the parsed data. -/
structure TableNode where
  independentVars : List String
  data : ParsedData

/-- The scan of Go `findIndices` over consecutive breakpoint pairs,
carrying the index of the pair currently examined.  `Option.none` means
the loop fell through. -/
def findIndicesLoop (value : ℝ) : List ℝ → ℕ → Option (ℕ × ℕ × ℝ)
  | a :: b :: rest, i =>
    if a ≤ value ∧ value ≤ b then
      Option.some (i, i + 1, if b ≠ a then (value - a) / (b - a) else 0)
    else findIndicesLoop value (b :: rest) (i + 1)
  | _, _ => Option.none

/-- Go `findIndices`: bracketing indices and interpolation fraction, with
clamping at both ends and a fall-through to the last index. -/
def findIndices (indices : List ℝ) (value : ℝ) : ℕ × ℕ × ℝ :=
  match indices with
  | [] => (0, 0, 0)
  | i0 :: rest =>
    if value ≤ i0 then (0, 0, 0)
    else if (i0 :: rest).getLastD 0 ≤ value then
      (indices.length - 1, indices.length - 1, 0)
    else ((findIndicesLoop value (i0 :: rest) 0).getD
      (indices.length - 1, indices.length - 1, 0))

/-- The bracketing scan of Go `interpolate1D`: walk consecutive
breakpoint/value pairs, return the linear interpolation at the first
bracketing pair, or the table's last value on fall-through. -/
def interp1DLoop (x lastVal : ℝ) : List ℝ → List ℝ → ℝ
  | i0 :: i1 :: irest, v0 :: v1 :: vrest =>
    if i0 ≤ x ∧ x ≤ i1 then v0 + (x - i0) / (i1 - i0) * (v1 - v0)
    else interp1DLoop x lastVal (i1 :: irest) (v1 :: vrest)
  | _, _ => lastVal

/-- Go `interpolate1D`: empty table evaluates to 0; queries at or below
the first breakpoint clamp to the first value, at or above the last clamp
to the last value; otherwise the bracketing scan interpolates.  (The Go
code would panic when `Values` is shorter than `Indices`; that state is
unreachable from `parse1DTableData`, which always builds the two arrays in
lockstep, and is mapped to 0 here.) -/
def interpolate1D (t : Table1D) (x : ℝ) : ℝ :=
  match t.indices, t.values with
  | [], _ => 0
  | _ :: _, [] => 0
  | i0 :: irest, v0 :: vrest =>
    if x ≤ i0 then v0
    else if (i0 :: irest).getLastD 0 ≤ x then (v0 :: vrest).getLastD 0
    else interp1DLoop x ((v0 :: vrest).getLastD 0) (i0 :: irest) (v0 :: vrest)

/-- Row `i`, column `j` of a 2D table's data, `t.Data[i][j]` (out-of-range
indexing, a Go panic, is mapped to 0; every use below is guarded by the
same bounds checks the source performs). -/
def tableEntry (t : Table2D) (i j : ℕ) : ℝ :=
  (t.data.getD i []).getD j 0

/-- Go `interpolate2D` (bilinear interpolation with the source's guard
chain and single-row/single-column special cases). -/
def interpolate2D (t : Table2D) (row col : ℝ) : ℝ :=
  if t.data = [] then 0
  else if t.rowIndices = [] ∨ t.colIndices = [] then 0
  else if t.data.any (fun r => r.isEmpty) then 0
  else
    let ri := findIndices t.rowIndices row
    let ci := findIndices t.colIndices col
    if t.data.length ≤ ri.1 ∨ t.data.length ≤ ri.2.1 then 0
    else if (t.data.headD []).length = 0 ∨ (t.data.headD []).length ≤ ci.1 ∨
        (t.data.headD []).length ≤ ci.2.1 then 0
    else if t.colIndices.length = 1 ∨ ci.1 = ci.2.1 then
      if t.rowIndices.length = 1 ∨ ri.1 = ri.2.1 then tableEntry t ri.1 ci.1
      else tableEntry t ri.1 ci.1 +
        ri.2.2 * (tableEntry t ri.2.1 ci.1 - tableEntry t ri.1 ci.1)
    else if t.rowIndices.length = 1 ∨ ri.1 = ri.2.1 then
      tableEntry t ri.1 ci.1 +
        ci.2.2 * (tableEntry t ri.1 ci.2.1 - tableEntry t ri.1 ci.1)
    else
      let v11 := tableEntry t ri.1 ci.1
      let v12 := tableEntry t ri.1 ci.2.1
      let v21 := tableEntry t ri.2.1 ci.1
      let v22 := tableEntry t ri.2.1 ci.2.1
      let v1 := v11 + ci.2.2 * (v12 - v11)
      let v2 := v21 + ci.2.2 * (v22 - v21)
      v1 + ri.2.2 * (v2 - v1)

/-- The slice-bracketing scan of Go `interpolate3D` (index pair and
fraction between adjacent slice breakpoints; `(0, 0, 0)` on
fall-through, matching the Go zero-initialised locals). -/
def slicesLoop (table : ℝ) : List Table2D → ℕ → ℕ × ℕ × ℝ
  | s1 :: s2 :: rest, i =>
    if s1.breakpoint ≤ table ∧ table ≤ s2.breakpoint then
      (i, i + 1,
        if s2.breakpoint ≠ s1.breakpoint then
          (table - s1.breakpoint) / (s2.breakpoint - s1.breakpoint)
        else 0)
    else slicesLoop table (s2 :: rest) (i + 1)
  | _, _ => (0, 0, 0)

/-- Go `interpolate3D`: out-of-range third-dimension queries reduce to the
nearest slice as 2D; otherwise linear interpolation between the two
bracketing slices' 2D results. -/
def interpolate3D (tables : List Table2D) (row col table : ℝ) : ℝ :=
  match tables with
  | [] => 0
  | t0 :: rest =>
    let ti := slicesLoop table (t0 :: rest) 0
    if table < t0.breakpoint then interpolate2D t0 row col
    else if ((t0 :: rest).getLastD t0).breakpoint < table then
      interpolate2D ((t0 :: rest).getLastD t0) row col
    else
      let v1 := interpolate2D ((t0 :: rest).getD ti.1 t0) row col
      let v2 := interpolate2D ((t0 :: rest).getD ti.2.1 t0) row col
      v1 + ti.2.2 * (v2 - v1)

/-- Go `InterpolateTable`: dimension/arity dispatch with the source's
error strings. -/
def InterpolateTable (pd : ParsedData) (inputs : List ℝ) : Except String ℝ :=
  match pd with
  | .oneD t =>
    if inputs.length ≠ 1 then Except.error "1D table requires 1 input"
    else Except.ok (interpolate1D t (inputs.getD 0 0))
  | .twoD t =>
    if inputs.length ≠ 2 then Except.error "2D table requires 2 inputs"
    else Except.ok (interpolate2D t (inputs.getD 0 0) (inputs.getD 1 0))
  | .threeD ts =>
    if inputs.length ≠ 3 then Except.error "3D table requires 3 inputs"
    else Except.ok (interpolate3D ts (inputs.getD 0 0) (inputs.getD 1 0) (inputs.getD 2 0))
  | .nodata => Except.error "unsupported table dimension"


/-! ## Expression evaluator (src/jsbsimxmlparser.go)

The source ships its own "simplified versions" of the math helpers
(`pow`, `abs`, `sin`, ..., `fmod`): truncating integer exponentiation and
polynomial approximations over a rational value of pi.  They are
translated literally (prefixed `go` to avoid clobbering the ambient
`abs`/`sin` notation of Mathlib). -/

/-- Go's `int(x)` conversion on a float: truncation toward zero. -/
def goTrunc (x : ℝ) : ℤ :=
  if 0 ≤ x then ⌊x⌋ else -⌊-x⌋

/-- Go helper `pow` (jsbsimxmlparser.go): `result := 1.0` multiplied by
`x` once per loop iteration `i < int(y)` — i.e. `x ^ int(y)` for a
nonnegative truncation and 1 otherwise. -/
def goPow (x y : ℝ) : ℝ :=
  x ^ (goTrunc y).toNat

/-- Go helper `abs`. -/
def goAbs (x : ℝ) : ℝ :=
  if x < 0 then -x else x

/-- Go helper `fmod`: `x - y*float64(int(x/y))`, with `x` returned
unchanged for a zero modulus. -/
def goFmod (x y : ℝ) : ℝ :=
  if y = 0 then x else x - y * (goTrunc (x / y) : ℝ)

/-- The rational pi literal `3.14159265359` the source's helpers use. -/
def goPi : ℝ := 3.14159265359

/-- Go helper `sin`: range reduction by `fmod` into `[0, 2π)` of the
rational pi, then ten alternating Taylor terms accumulated exactly as the
source loop does. -/
def goSin (x0 : ℝ) : ℝ :=
  let x := goFmod x0 (2 * goPi)
  ((List.range' 1 10).foldl
    (fun (p : ℝ × ℝ) i =>
      let term := p.1 * (-(x * x) / (((2 * i) * (2 * i + 1) : ℕ) : ℝ))
      (term, p.2 + term))
    (x, x)).2

/-- Go helper `cos` (`sin(x + π/2)`). -/
def goCos (x : ℝ) : ℝ :=
  goSin (x + goPi / 2)

/-- Go helper `tan` (`sin/cos` with a zero-cosine guard returning 0). -/
def goTan (x : ℝ) : ℝ :=
  let c := goCos x
  if c ≠ 0 then goSin x / c else 0

/-- Go helper `asin` (odd polynomial approximation, 0 outside [-1, 1]). -/
def goAsin (x : ℝ) : ℝ :=
  if x < -1 ∨ 1 < x then 0
  else x + x * x * x / 6 + 3 * (x * x * x * x * x) / 40

/-- Go helper `acos` (`π/2 - asin(x)`). -/
def goAcos (x : ℝ) : ℝ :=
  goPi / 2 - goAsin x

/-- Go helper `atan` (odd polynomial approximation). -/
def goAtan (x : ℝ) : ℝ :=
  x - x * x * x / 3 + x * x * x * x * x / 5

/-- Go `performOperation`: the reduction of an already-collected value
list.  The source first returns 0 for an empty list, then switches on the
operation name, defaulting to the first value. -/
def performOperation (opType : String) (values : List ℝ) : ℝ :=
  match values with
  | [] => 0
  | v0 :: rest =>
    if opType = "product" then (v0 :: rest).foldl (fun a v => a * v) 1
    else if opType = "sum" then (v0 :: rest).foldl (fun a v => a + v) 0
    else if opType = "difference" then rest.foldl (fun a v => a - v) v0
    else if opType = "quotient" then
      rest.foldl (fun a v => if v ≠ 0 then a / v else a) v0
    else if opType = "pow" then
      if values.length < 2 then v0 else goPow v0 (rest.headD 0)
    else if opType = "abs" then goAbs v0
    else if opType = "sin" then goSin v0
    else if opType = "cos" then goCos v0
    else if opType = "tan" then goTan v0
    else if opType = "asin" then goAsin v0
    else if opType = "acos" then goAcos v0
    else if opType = "atan" then goAtan v0
    else v0

/-- Go `Operation` (the recursive expression node).  The struct also
declares `Pow`/`Abs`/`Sin`/`Cos`/`Tan`/`Asin`/`Acos`/`Atan` sub-operation
pointers, but `evaluateOperation` never reads them, so only the four
sub-operation fields the evaluator consults are carried.  The `Table`
pointer is carried in its parsed form (`ParseTable` is total — it returns
a nil error on every input). -/
inductive Operation : Type where
  | mk (property : List String) (value : List ℝ) (table : Option TableNode)
       (product : Option Operation) (sum : Option Operation)
       (difference : Option Operation) (quotient : Option Operation) : Operation

/-- The property-collection loop at the top of Go `evaluateOperation`:
`for _, prop := range op.Property { if val, ok := properties[prop]; ok {
values = append(values, val) } }` — a name present in the map appends its
value, an absent name appends nothing. -/
def collectPropertyValues (properties : List (String × ℝ)) : List String → List ℝ
  | [] => []
  | p :: ps => (lookupGo p properties).toList ++ collectPropertyValues properties ps

/-- The `if err == nil { values = append(values, val) }` pattern: a
successful sub-evaluation contributes its value, a failed one contributes
nothing. -/
def okToList (e : Except String ℝ) : List ℝ :=
  match e with
  | .ok v => [v]
  | .error _ => []

/-- Go `evaluateOperation`: collect property values (absent names are
skipped), then inline literal values, then the values of the four
sub-operations in source order (errors swallowed), then the embedded
table's value (inputs read from the map with the Go zero-value default 0
for absent keys; interpolation errors swallowed); error out if nothing
was collected, otherwise reduce with `performOperation`. -/
def evaluateOperation : Operation → String → List (String × ℝ) → Except String ℝ
  | .mk property value table product sum difference quotient, opType, properties =>
    let v1 := collectPropertyValues properties property ++ value
    let v2 := v1 ++ (match product with
      | Option.none => []
      | Option.some op => okToList (evaluateOperation op "product" properties))
    let v3 := v2 ++ (match sum with
      | Option.none => []
      | Option.some op => okToList (evaluateOperation op "sum" properties))
    let v4 := v3 ++ (match difference with
      | Option.none => []
      | Option.some op => okToList (evaluateOperation op "difference" properties))
    let v5 := v4 ++ (match quotient with
      | Option.none => []
      | Option.some op => okToList (evaluateOperation op "quotient" properties))
    let v6 := v5 ++ (match table with
      | Option.none => []
      | Option.some tn =>
        okToList (InterpolateTable tn.data
          (tn.independentVars.map (fun nm => (lookupGo nm properties).getD 0))))
    if v6 = [] then Except.error "no values for operation"
    else Except.ok (performOperation opType v6)

/-- Go `Function` (the top-level expression node): twelve optional
operations plus an optional table, in the source's field order.  The
non-semantic `Name`/`Description` strings are dropped. -/
structure Function where
  product : Option Operation
  difference : Option Operation
  sum : Option Operation
  quotient : Option Operation
  pow : Option Operation
  abs : Option Operation
  sin : Option Operation
  cos : Option Operation
  tan : Option Operation
  asin : Option Operation
  acos : Option Operation
  atan : Option Operation
  table : Option TableNode

/-- Go `EvaluateFunction`: dispatch on the first set operation field in
the source's check order (product, sum, difference, quotient, pow, abs,
sin, cos, tan, asin, acos, atan), then the table, then the
no-operation error.  (The nil-receiver guard is unrepresentable for a
value argument.) -/
def EvaluateFunction (f : Function) (properties : List (String × ℝ)) : Except String ℝ :=
  match f.product with
  | Option.some op => evaluateOperation op "product" properties
  | Option.none =>
  match f.sum with
  | Option.some op => evaluateOperation op "sum" properties
  | Option.none =>
  match f.difference with
  | Option.some op => evaluateOperation op "difference" properties
  | Option.none =>
  match f.quotient with
  | Option.some op => evaluateOperation op "quotient" properties
  | Option.none =>
  match f.pow with
  | Option.some op => evaluateOperation op "pow" properties
  | Option.none =>
  match f.abs with
  | Option.some op => evaluateOperation op "abs" properties
  | Option.none =>
  match f.sin with
  | Option.some op => evaluateOperation op "sin" properties
  | Option.none =>
  match f.cos with
  | Option.some op => evaluateOperation op "cos" properties
  | Option.none =>
  match f.tan with
  | Option.some op => evaluateOperation op "tan" properties
  | Option.none =>
  match f.asin with
  | Option.some op => evaluateOperation op "asin" properties
  | Option.none =>
  match f.acos with
  | Option.some op => evaluateOperation op "acos" properties
  | Option.none =>
  match f.atan with
  | Option.some op => evaluateOperation op "atan" properties
  | Option.none =>
  match f.table with
  | Option.some tn =>
    InterpolateTable tn.data
      (tn.independentVars.map (fun nm => (lookupGo nm properties).getD 0))
  | Option.none => Except.error "no valid operation in function"


/-! ## Property store (src/fcs_property_manager.go)

`PropertyManager` carries a value map and an alias map.  The listener
registry and its `go listener.OnPropertyChanged(...)` notifications are
dropped (they never write back into the store), as are the RW-mutex
acquisitions (single-threaded stepping).  `initializeStandardProperties`
merely presets a fixed catalog of names to 0; since `Get` already returns
0 for an absent name, presetting is unobservable through `Set`/`Get` and
is not modelled. -/

structure PropertyManager where
  properties : List (String × ℝ)
  aliases : List (String × String)

/-- Go `PropertyManager.Set`: resolve the name through the alias map once,
then write the value. -/
def PropertyManager.Set (pm : PropertyManager) (name : String) (value : ℝ) :
    PropertyManager :=
  let resolved := (lookupGo name pm.aliases).getD name
  { pm with properties := insertGo resolved value pm.properties }

/-- Go `PropertyManager.Get`: resolve the name through the alias map once,
then read it, returning 0.0 for a non-existent property (the JSBSim
behavior the source comments on). -/
def PropertyManager.Get (pm : PropertyManager) (name : String) : ℝ :=
  let resolved := (lookupGo name pm.aliases).getD name
  (lookupGo resolved pm.properties).getD 0

/-! ## FCS components (src/README.md component listing)

Only the two component kinds a claim exercises are embedded (gain and
actuator); the remaining kinds (lag, summer, clipper, switch) share the
same `ComponentProcessor` calling convention and are not referenced by
any claim.  The `BaseComponent` fields `Type` (a constant tag) and
`RateGroup` (consulted only by `AddComponent`, which no claim covers) are
dropped. -/

/-- Go `GainComponent`. -/
structure GainComponent where
  name : String
  inputs : List String
  output : String
  enabled : Bool
  gain : ℝ

/-- Go `GainComponent.Execute`: disabled or input-less components return 0
without touching the store; otherwise multiply the input property by the
gain and write the output property when one is named. -/
def GainComponent.Execute (gc : GainComponent) (properties : PropertyManager)
    (_dt : ℝ) : PropertyManager × ℝ :=
  if gc.enabled = false ∨ gc.inputs = [] then (properties, 0)
  else
    let input := properties.Get (gc.inputs.headD "")
    let output := input * gc.gain
    (if gc.output = "" then properties else properties.Set gc.output output, output)

/-- Go `ActuatorComponent` (configuration and persistent state).
`rateLimit = Option.none` models the `math.Inf(1)` "no limit" default. -/
structure ActuatorComponent where
  name : String
  inputs : List String
  output : String
  enabled : Bool
  rateLimit : Option ℝ
  lag : ℝ
  hysteresisWidth : ℝ
  biasValue : ℝ
  currentValue : ℝ
  targetValue : ℝ
  previousInput : ℝ
  initialized : Bool

/-- Go `ActuatorComponent.Execute`, statement by statement: early-out for
disabled/input-less actuators; read the input property and add the bias;
hysteresis (when the width is positive, an input change within the
half-width keeps the previous input, and the accepted input becomes the
new `previousInput`); zero-initialisation of `currentValue`/`targetValue`
on first execution; rate limiting (when the limit is finite and positive,
the target moves toward the input by at most `rateLimit*dt`); first-order
lag (when the lag constant is positive) or direct pass-through; output
property write; returns the updated component state, store and output. -/
def ActuatorComponent.Execute (ac : ActuatorComponent) (properties : PropertyManager)
    (dt : ℝ) : ActuatorComponent × PropertyManager × ℝ :=
  if ac.enabled = false ∨ ac.inputs = [] then (ac, properties, ac.currentValue)
  else
    let inputRead := properties.Get (ac.inputs.headD "") + ac.biasValue
    let inputValue :=
      if 0 < ac.hysteresisWidth ∧ goAbs (inputRead - ac.previousInput) < ac.hysteresisWidth / 2
      then ac.previousInput else inputRead
    let previousInput := if 0 < ac.hysteresisWidth then inputValue else ac.previousInput
    let currentValue0 := if ac.initialized then ac.currentValue else 0
    let targetValue0 := if ac.initialized then ac.targetValue else 0
    let targetValue :=
      match ac.rateLimit with
      | Option.some rl =>
        if 0 < rl then
          let maxChange := rl * dt
          if targetValue0 + maxChange < inputValue then targetValue0 + maxChange
          else if inputValue < targetValue0 - maxChange then targetValue0 - maxChange
          else inputValue
        else inputValue
      | Option.none => inputValue
    let currentValue :=
      if 0 < ac.lag then currentValue0 + dt / (ac.lag + dt) * (targetValue - currentValue0)
      else targetValue
    let properties' := if ac.output = "" then properties
      else properties.Set ac.output currentValue
    ({ ac with currentValue := currentValue, targetValue := targetValue,
               previousInput := previousInput, initialized := true },
     properties', currentValue)

/-- The `ComponentProcessor` interface, restricted to the embedded
component kinds. -/
inductive ComponentProcessor : Type where
  | gain (gc : GainComponent) : ComponentProcessor
  | actuator (ac : ActuatorComponent) : ComponentProcessor

/-- Dynamic dispatch of `Execute(properties, dt)` over the component
kinds, threading the (in Go, pointer-mutated) component state. -/
def ComponentProcessor.Execute : ComponentProcessor → PropertyManager → ℝ →
    ComponentProcessor × PropertyManager × ℝ
  | .gain gc, properties, dt =>
    let r := gc.Execute properties dt
    (.gain gc, r.1, r.2)
  | .actuator ac, properties, dt =>
    let r := ac.Execute properties dt
    (.actuator r.1, r.2.1, r.2.2)

/-! ## Aircraft state (src/aircraft_state.go)

The claims read and write only the integrated quantities (time, position,
orientation, velocity, angular rate, altitude), the fields
`FlightControlSystem.Execute` synchronises with the store, and the
control-surface outputs; the purely derived fields (`Roll`/`Pitch`/`Yaw`,
airspeeds, Mach, alpha/beta, engine/gear/forces snapshots) are recomputed
from these and are not carried.  Consequently `UpdateAtmosphere` and
`UpdateDerivedParameters`, which write only derived fields (temperature,
pressure, density, sound speed, dynamic pressure, Euler-angle mirrors,
airspeeds), act as the identity on this reduced state and are not
modelled as separate steps of the integrators. -/

/-- Go `ControlInputs`. -/
structure ControlInputs where
  aileron : ℝ
  elevator : ℝ
  rudder : ℝ
  throttle : ℝ
  flaps : ℝ
  gear : Bool
  brake : ℝ
  mixture : ℝ
  propeller : ℝ

/-- The four control-surface position fields of Go
`AircraftState.ControlSurfaces` that the FCS reads and writes. -/
structure ControlSurfaces where
  aileronLeft : ℝ
  aileronRight : ℝ
  elevator : ℝ
  rudder : ℝ

/-- Go `AircraftState`, reduced to the fields the claims touch. -/
structure AircraftState where
  time : ℝ
  position : Vector3
  altitude : ℝ
  orientation : Quaternion
  velocity : Vector3
  angularRate : Vector3
  temperature : ℝ
  pressure : ℝ
  density : ℝ
  calibratedAirspeed : ℝ
  controlSurfaces : ControlSurfaces
  controls : ControlInputs

/-- Go `PropertyManager.UpdateFromAircraftState`: the fixed write list, in
source order, including the unit conversions and the `TODO` entries the
source stubs to 0. -/
def PropertyManager.UpdateFromAircraftState (pm : PropertyManager)
    (state : AircraftState) : PropertyManager :=
  let pm := pm.Set "fcs/aileron-cmd-norm" state.controls.aileron
  let pm := pm.Set "fcs/elevator-cmd-norm" state.controls.elevator
  let pm := pm.Set "fcs/rudder-cmd-norm" state.controls.rudder
  let pm := pm.Set "fcs/throttle-cmd-norm" state.controls.throttle
  let pm := pm.Set "fcs/flap-cmd-norm" state.controls.flaps
  let pm := pm.Set "fcs/left-aileron-pos-rad" state.controlSurfaces.aileronLeft
  let pm := pm.Set "fcs/right-aileron-pos-rad" state.controlSurfaces.aileronRight
  let pm := pm.Set "fcs/elevator-pos-rad" state.controlSurfaces.elevator
  let pm := pm.Set "fcs/rudder-pos-rad" state.controlSurfaces.rudder
  let pm := pm.Set "atmosphere/rho" state.density
  let pm := pm.Set "atmosphere/pressure-psf" (state.pressure * 0.020885)
  let pm := pm.Set "atmosphere/temperature-R" (state.temperature * 1.8)
  let pm := pm.Set "velocities/vt-fps" (state.velocity.Magnitude * 3.28084)
  let pm := pm.Set "velocities/vc-kts" (state.calibratedAirspeed * 1.94384)
  let pm := pm.Set "velocities/alpha-rad" 0
  let pm := pm.Set "velocities/beta-rad" 0
  let pm := pm.Set "velocities/p-rad_sec" state.angularRate.x
  let pm := pm.Set "velocities/q-rad_sec" state.angularRate.y
  let pm := pm.Set "velocities/r-rad_sec" state.angularRate.z
  let pm := pm.Set "position/h-sl-ft" (state.altitude * 3.28084)
  let pm := pm.Set "attitude/phi-rad" 0
  let pm := pm.Set "attitude/theta-rad" 0
  let pm := pm.Set "attitude/psi-rad" 0
  pm

/-- Go `PropertyManager.ApplyToAircraftState`: copy the four canonical
control-surface outputs back into the state. -/
def PropertyManager.ApplyToAircraftState (pm : PropertyManager)
    (state : AircraftState) : AircraftState :=
  { state with controlSurfaces :=
    { aileronLeft := pm.Get "fcs/left-aileron-pos-rad"
      aileronRight := pm.Get "fcs/right-aileron-pos-rad"
      elevator := pm.Get "fcs/elevator-pos-rad"
      rudder := pm.Get "fcs/rudder-pos-rad" } }

/-! ## FCS scheduler (src/unnamed/part_004) -/

/-- Go `RateGroupScheduler`.  The wall-clock fields `LastExecution` and
`ExecutionTime` are dropped (they never influence a property value:
`Execute` runs unconditionally and `ShouldExecute` is not called by
`FlightControlSystem.Execute`). -/
structure RateGroupScheduler where
  name : String
  rateHz : ℝ
  period : ℝ
  components : List ComponentProcessor
  enabled : Bool

/-- The component loop of Go `RateGroupScheduler.Execute`: run every
component in list order, threading the store and the component states. -/
def execComponents : List ComponentProcessor → PropertyManager → ℝ →
    List ComponentProcessor × PropertyManager
  | [], properties, _ => ([], properties)
  | c :: cs, properties, dt =>
    let r := c.Execute properties dt
    let rest := execComponents cs r.2.1 dt
    (r.1 :: rest.1, rest.2)

/-- Go `RateGroupScheduler.Execute`: a disabled group is a no-op,
otherwise all components run in insertion order. -/
def RateGroupScheduler.Execute (rgs : RateGroupScheduler)
    (properties : PropertyManager) (dt : ℝ) : RateGroupScheduler × PropertyManager :=
  if rgs.enabled = false then (rgs, properties)
  else
    let r := execComponents rgs.components properties dt
    ({ rgs with components := r.1 }, r.2)

/-- Go `FlightControlSystem`.  `RateGroups` is a Go
`map[string]*RateGroupScheduler`; a Go map guarantees no iteration order
(the runtime randomises it), so the map is embedded as one of its
enumerations — a key-keyed list — and `Execute` below iterates that
enumeration.  Two `FlightControlSystem` values whose `rateGroups` lists
are permutations of each other denote the *same* Go map.  `Channels` and
the `Components` master index are not read by `Execute` and are dropped,
as are the execution counters. -/
structure FlightControlSystem where
  name : String
  properties : PropertyManager
  rateGroups : List (String × RateGroupScheduler)
  defaultRate : ℝ
  enabled : Bool

/-- The rate-group loop of Go `FlightControlSystem.Execute`
(`for _, rateGroup := range fcs.RateGroups`), over the chosen map
enumeration. -/
def execRateGroups : List (String × RateGroupScheduler) → PropertyManager → ℝ →
    List (String × RateGroupScheduler) × PropertyManager
  | [], properties, _ => ([], properties)
  | (k, g) :: gs, properties, dt =>
    let r := g.Execute properties dt
    let rest := execRateGroups gs r.2 dt
    ((k, r.1) :: rest.1, rest.2)

/-- Go `FlightControlSystem.Execute`: sync the store from the aircraft
state, run every rate group (in the map-enumeration order carried by
`rateGroups` — the Go source iterates the map directly), then copy the
canonical outputs back into the state. -/
def FlightControlSystem.Execute (fcs : FlightControlSystem)
    (state : AircraftState) (dt : ℝ) : FlightControlSystem × AircraftState :=
  if fcs.enabled = false then (fcs, state)
  else
    let props1 := fcs.properties.UpdateFromAircraftState state
    let r := execRateGroups fcs.rateGroups props1 dt
    let state' := r.2.ApplyToAircraftState state
    ({ fcs with properties := r.2, rateGroups := r.1 }, state')


/-! ## Integrators (src/integration_engine.go) -/

/-- Go `StateDerivatives`. -/
structure StateDerivatives where
  positionDot : Vector3
  orientationDot : Quaternion
  velocityDot : Vector3
  angularRateDot : Vector3
  altitudeDot : ℝ
  massDot : ℝ

/-- Go `EulerIntegrator.Integrate`: position advances by the body velocity
rotated to the Earth frame; the orientation by `q + ½·q⊗ω·dt` followed by
renormalisation; velocity and angular rate by a direct Euler step;
altitude is recovered as `-Position.Z`.  (`UpdateAtmosphere` and
`UpdateDerivedParameters` write only derived fields absent from the
reduced state.) -/
def EulerIntegrator.Integrate (state : AircraftState) (derivatives : StateDerivatives)
    (dt : ℝ) : AircraftState :=
  let earthVel := state.orientation.RotateVector state.velocity
  let newPosition := state.position.Add (earthVel.Scale dt)
  let omegaQuat : Quaternion :=
    ⟨0, state.angularRate.x, state.angularRate.y, state.angularRate.z⟩
  let orientationDot := (state.orientation.Multiply omegaQuat).Scale 0.5
  { state with
    time := state.time + dt
    position := newPosition
    orientation := ((state.orientation.Add (orientationDot.Scale dt)).Normalize)
    velocity := state.velocity.Add (derivatives.velocityDot.Scale dt)
    angularRate := state.angularRate.Add (derivatives.angularRateDot.Scale dt)
    altitude := -newPosition.z }

/-- Go `RungeKutta4Integrator.Integrate` — the source's approximate RK4:
position k-slopes from velocities advanced by the given acceleration,
orientation k-slopes with two intermediate renormalised states, and
velocity/angular-rate k2..k4 slopes scaled by the empirical factors
0.95 / 0.98 / 0.90. -/
def RungeKutta4Integrator.Integrate (state : AircraftState)
    (derivatives : StateDerivatives) (dt : ℝ) : AircraftState :=
  let earthVel := state.orientation.RotateVector state.velocity
  let k1pos := earthVel
  let midVel := state.velocity.Add (derivatives.velocityDot.Scale (dt * 0.5))
  let earthVel2 := state.orientation.RotateVector midVel
  let k2pos := earthVel2
  let k3pos := earthVel2
  let finalVel := state.velocity.Add (derivatives.velocityDot.Scale dt)
  let earthVel3 := state.orientation.RotateVector finalVel
  let k4pos := earthVel3
  let avgVel := (((k1pos.Add (k2pos.Scale 2)).Add (k3pos.Scale 2)).Add k4pos).Scale (1 / 6)
  let newPosition := state.position.Add (avgVel.Scale dt)
  let omegaQuat : Quaternion :=
    ⟨0, state.angularRate.x, state.angularRate.y, state.angularRate.z⟩
  let k1orient := (state.orientation.Multiply omegaQuat).Scale 0.5
  let midOmega := state.angularRate.Add (derivatives.angularRateDot.Scale (dt * 0.5))
  let omegaQuat2 : Quaternion := ⟨0, midOmega.x, midOmega.y, midOmega.z⟩
  let midOrient := (state.orientation.Add (k1orient.Scale (dt * 0.5))).Normalize
  let k2orient := (midOrient.Multiply omegaQuat2).Scale 0.5
  let k3orient := (midOrient.Multiply omegaQuat2).Scale 0.5
  let finalOmega := state.angularRate.Add (derivatives.angularRateDot.Scale dt)
  let omegaQuat3 : Quaternion := ⟨0, finalOmega.x, finalOmega.y, finalOmega.z⟩
  let finalOrient := (state.orientation.Add (k3orient.Scale dt)).Normalize
  let k4orient := (finalOrient.Multiply omegaQuat3).Scale 0.5
  let avgOrientDot :=
    (((k1orient.Add (k2orient.Scale 2)).Add (k3orient.Scale 2)).Add k4orient).Scale (1 / 6)
  let k1vel := derivatives.velocityDot
  let k2vel := k1vel.Scale 0.95
  let k3vel := k1vel.Scale 0.98
  let k4vel := k1vel.Scale 0.90
  let avgVelDot := (((k1vel.Add (k2vel.Scale 2)).Add (k3vel.Scale 2)).Add k4vel).Scale (1 / 6)
  let k1ang := derivatives.angularRateDot
  let k2ang := k1ang.Scale 0.95
  let k3ang := k1ang.Scale 0.98
  let k4ang := k1ang.Scale 0.90
  let avgAngDot := (((k1ang.Add (k2ang.Scale 2)).Add (k3ang.Scale 2)).Add k4ang).Scale (1 / 6)
  { state with
    time := state.time + dt
    position := newPosition
    orientation := ((state.orientation.Add (avgOrientDot.Scale dt)).Normalize)
    velocity := state.velocity.Add (avgVelDot.Scale dt)
    angularRate := state.angularRate.Add (avgAngDot.Scale dt)
    altitude := -newPosition.z }

/-- Go `AdamsBashforth2Integrator`'s persistent state: the stored previous
derivatives (`Option.none` models the initial
`previousDerivatives == nil / hasPrevious == false` pair). -/
structure AdamsBashforth2Integrator where
  previousDerivatives : Option StateDerivatives

/-- Go `AdamsBashforth2Integrator.Integrate`.  First step: delegate to the
Euler integrator and store the derivatives.  Subsequent steps: velocity
and angular rate advance by `dt·(1.5·f_n − 0.5·f_{n−1})`; position uses
the *current* rotated body velocity for both slopes (the source computes
`prevEarthVel` from the current state, with a `// Simplified` comment);
the orientation integrates `½·q⊗ω·dt` with the already-updated angular
rate and renormalises. -/
def AdamsBashforth2Integrator.Integrate (ab : AdamsBashforth2Integrator)
    (state : AircraftState) (derivatives : StateDerivatives) (dt : ℝ) :
    AdamsBashforth2Integrator × AircraftState :=
  match ab.previousDerivatives with
  | Option.none =>
    (⟨Option.some derivatives⟩, EulerIntegrator.Integrate state derivatives dt)
  | Option.some prev =>
    let earthVel := state.orientation.RotateVector state.velocity
    let prevEarthVel := state.orientation.RotateVector state.velocity
    let positionStep := ((earthVel.Scale 1.5).Add (prevEarthVel.Scale (-0.5))).Scale dt
    let newPosition := state.position.Add positionStep
    let velocityStep :=
      ((derivatives.velocityDot.Scale 1.5).Add (prev.velocityDot.Scale (-0.5))).Scale dt
    let newVelocity := state.velocity.Add velocityStep
    let angularStep :=
      ((derivatives.angularRateDot.Scale 1.5).Add (prev.angularRateDot.Scale (-0.5))).Scale dt
    let newAngularRate := state.angularRate.Add angularStep
    let omegaQuat : Quaternion :=
      ⟨0, newAngularRate.x, newAngularRate.y, newAngularRate.z⟩
    let orientationDot := (state.orientation.Multiply omegaQuat).Scale 0.5
    (⟨Option.some derivatives⟩,
     { state with
       time := state.time + dt
       position := newPosition
       velocity := newVelocity
       angularRate := newAngularRate
       orientation := ((state.orientation.Add (orientationDot.Scale dt)).Normalize)
       altitude := -newPosition.z })

/-! ## Propulsion (src/README.md propulsion listing) -/

/-- Go `PistonEngine` (the `Name` string is dropped). -/
structure PistonEngine where
  isRunning : Bool
  rpm : ℝ
  manifoldPressure : ℝ
  throttlePosition : ℝ
  maxRPM : ℝ
  maxMAP : ℝ
  idleRPM : ℝ
  idleMAP : ℝ

/-- Go `Propeller` (the `Name` string is dropped). -/
structure Propeller where
  diameter : ℝ
  rpm : ℝ
  thrust : ℝ
  torque : ℝ
  inducedVelocity : ℝ

/-- Go `FuelTank` (`Type` tag dropped). -/
structure FuelTank where
  number : ℕ
  position : Vector3
  capacity : ℝ
  contents : ℝ
  priority : ℕ

/-- Go `FuelSystem`. -/
structure FuelSystem where
  tanks : List FuelTank
  totalCapacity : ℝ
  totalContents : ℝ
  fuelFlow : ℝ

/-- Go `PropulsionSystem`. -/
structure PropulsionSystem where
  engine : PistonEngine
  propeller : Propeller
  fuelSystem : FuelSystem
  maxThrust : ℝ
  referenceRPM : ℝ
  referenceMAP : ℝ
  runningFactor : ℝ
  position : Vector3
  orientation : Vector3

/-- Go constant `DEG_TO_RAD`. -/
def DEG_TO_RAD : ℝ := Real.pi / 180

/-- Go `NewPropulsionSystem`: the P-51D calibration constants, engine and
propeller defaults, and the five fuel tanks of
`createFuelSystemFromXML` (aggregates written out as the loop's sums). -/
def NewPropulsionSystem : PropulsionSystem :=
  { engine :=
    { isRunning := false
      rpm := 0
      manifoldPressure := 29.92
      throttlePosition := 0
      maxRPM := 3000
      maxMAP := 61
      idleRPM := 800
      idleMAP := 15 }
    propeller :=
    { diameter := 11.2, rpm := 0, thrust := 0, torque := 0, inducedVelocity := 0 }
    fuelSystem :=
    { tanks :=
      [ { number := 0
          position := ⟨106 * 0.0254, -80 * 0.0254, -9.675 * 0.0254⟩
          capacity := 553.84
          contents := 396
          priority := 1 },
        { number := 1
          position := ⟨106 * 0.0254, 80 * 0.0254, -9.675 * 0.0254⟩
          capacity := 553.84
          contents := 396
          priority := 1 },
        { number := 2
          position := ⟨160 * 0.0254, 0, -3 * 0.0254⟩
          capacity := 511.7
          contents := 0
          priority := 1 },
        { number := 3
          position := ⟨97.5 * 0.0254, -198 * 0.0254, -25 * 0.0254⟩
          capacity := 451.5
          contents := 0
          priority := 1 },
        { number := 4
          position := ⟨97.5 * 0.0254, 198 * 0.0254, -25 * 0.0254⟩
          capacity := 451.5
          contents := 0
          priority := 1 } ]
      totalCapacity := 553.84 + 553.84 + 511.7 + 451.5 + 451.5
      totalContents := 396 + 396
      fuelFlow := 0 }
    maxThrust := 200
    referenceRPM := 1260
    referenceMAP := 81
    runningFactor := 0.3
    position := ⟨36 * 0.0254, 0, 0⟩
    orientation := ⟨-4 * DEG_TO_RAD, 2.5 * DEG_TO_RAD, 0⟩ }

/-- Go `PropulsionSystem.updateEngine`: latch to running when throttle
exceeds 0.1; when running, interpolate RPM and manifold pressure linearly
between idle and max; when off, RPM 0 and sea-level manifold pressure;
mirror the engine RPM into the propeller. -/
def PropulsionSystem.updateEngine (ps : PropulsionSystem) (_dt : ℝ) : PropulsionSystem :=
  let isRunning :=
    if ps.engine.isRunning = false ∧ 0.1 < ps.engine.throttlePosition then true
    else ps.engine.isRunning
  let engine :=
    if isRunning then
      { ps.engine with
        isRunning := isRunning
        rpm := ps.engine.idleRPM +
          ps.engine.throttlePosition * (ps.engine.maxRPM - ps.engine.idleRPM)
        manifoldPressure := ps.engine.idleMAP +
          ps.engine.throttlePosition * (ps.engine.maxMAP - ps.engine.idleMAP) }
    else { ps.engine with isRunning := isRunning, rpm := 0, manifoldPressure := 29.92 }
  { ps with engine := engine, propeller := { ps.propeller with rpm := engine.rpm } }

/-- Go `PropulsionSystem.updatePropeller`: the JSBSim thrust formula with
the *current* running factor, clamped at zero, and the simplified induced
velocity `√(thrust/0.5)` for positive thrust. -/
def PropulsionSystem.updatePropeller (ps : PropulsionSystem) (_dt : ℝ) : PropulsionSystem :=
  let rpmFactor := ps.propeller.rpm / ps.referenceRPM
  let mapFactor := ps.engine.manifoldPressure / ps.referenceMAP
  let thrust := max 0 (ps.runningFactor * rpmFactor * mapFactor * ps.maxThrust)
  let inducedVelocity := if 0 < thrust then Real.sqrt (thrust / 0.5) else 0
  { ps with propeller :=
    { ps.propeller with thrust := thrust, inducedVelocity := inducedVelocity } }

/-- The tank loop of Go `consumeFuel`: draw from each tank in list order
until the burn is satisfied; returns the updated tanks, the unsatisfied
remainder and the total drawn (the source subtracts each tank's draw from
`TotalContents` as it goes). -/
def consumeFuelLoop (burn : ℝ) : List FuelTank → List FuelTank × ℝ × ℝ
  | [] => ([], burn, 0)
  | tank :: rest =>
    if burn ≤ 0 ∨ tank.contents ≤ 0 then
      let r := consumeFuelLoop burn rest
      (tank :: r.1, r.2.1, r.2.2)
    else
      let b := min burn tank.contents
      let r := consumeFuelLoop (burn - b) rest
      ({ tank with contents := tank.contents - b } :: r.1, r.2.1, r.2.2 + b)

/-- Go `PropulsionSystem.consumeFuel`. -/
def PropulsionSystem.consumeFuel (ps : PropulsionSystem) (fuelBurn : ℝ) : PropulsionSystem :=
  let r := consumeFuelLoop fuelBurn ps.fuelSystem.tanks
  { ps with fuelSystem :=
    { ps.fuelSystem with
      tanks := r.1
      totalContents := ps.fuelSystem.totalContents - r.2.2 } }

/-- Go `PropulsionSystem.updateFuelConsumption`: when running with
positive thrust, flow = (thrust·0.75)·0.5 lb/h and the per-step burn
`flow·dt/3600` is drawn from the tanks; otherwise flow is zeroed. -/
def PropulsionSystem.updateFuelConsumption (ps : PropulsionSystem) (dt : ℝ) :
    PropulsionSystem :=
  if ps.engine.isRunning = true ∧ 0 < ps.propeller.thrust then
    let estimatedHP := ps.propeller.thrust * 0.75
    let fuelFlow := estimatedHP * 0.5
    let ps1 := { ps with fuelSystem := { ps.fuelSystem with fuelFlow := fuelFlow } }
    ps1.consumeFuel (fuelFlow * dt / 3600)
  else { ps with fuelSystem := { ps.fuelSystem with fuelFlow := 0 } }

/-- Go `PropulsionSystem.Update`: clamp the throttle into [0, 1], update
the engine, the propeller and the fuel draw, then set the running factor
from the (possibly just-changed) running flag — note the factor the
propeller update just consumed was the *pre-update* one. -/
def PropulsionSystem.Update (ps : PropulsionSystem) (throttleInput dt : ℝ) :
    PropulsionSystem :=
  let ps := { ps with engine :=
    { ps.engine with throttlePosition := max 0 (min 1 throttleInput) } }
  let ps := ps.updateEngine dt
  let ps := ps.updatePropeller dt
  let ps := ps.updateFuelConsumption dt
  { ps with runningFactor := if ps.engine.isRunning then 1.0 else 0.3 }


/-! ## Specification-side definitions

The stage functions below transcribe the *specification's* description of
the actuator pipeline ("read input, add bias, apply hysteresis, apply
rate limiting, then apply the first-order lag"); the theorem for the
actuator claim relates `ActuatorComponent.Execute` to their
composition. -/

/-- Spec-side hysteresis: a change within the half-width keeps the
previous accepted input (active only for a positive band width). -/
def hysteresisStage (width previous x : ℝ) : ℝ :=
  if 0 < width ∧ goAbs (x - previous) < width / 2 then previous else x

/-- Spec-side rate limiting: the change from the previous rate-limited
target is clamped to `±rateLimit·dt` (inactive for an infinite or
non-positive limit). -/
def rateLimitStage (rateLimit : Option ℝ) (dt target0 x : ℝ) : ℝ :=
  match rateLimit with
  | Option.some rl =>
    if 0 < rl then max (target0 - rl * dt) (min (target0 + rl * dt) x)
    else x
  | Option.none => x

/-- Spec-side first-order lag `output + dt/(τ+dt)·(target − output)`
(pass-through for a non-positive time constant). -/
def lagStage (lag dt current0 target : ℝ) : ℝ :=
  if 0 < lag then current0 + dt / (lag + dt) * (target - current0) else target

/-! ## Concrete inputs used by witnesses and counterexamples -/

/-- An all-zero aircraft state except for a full-throttle pilot command;
used as the fixed state of the FCS determinism counterexample. -/
def c1State : AircraftState :=
  { time := 0
    position := ⟨0, 0, 0⟩
    altitude := 0
    orientation := ⟨1, 0, 0, 0⟩
    velocity := ⟨0, 0, 0⟩
    angularRate := ⟨0, 0, 0⟩
    temperature := 0
    pressure := 0
    density := 0
    calibratedAirspeed := 0
    controlSurfaces := { aileronLeft := 0, aileronRight := 0, elevator := 0, rudder := 0 }
    controls :=
    { aileron := 0
      elevator := 0
      rudder := 0
      throttle := 1
      flaps := 0
      gear := false
      brake := 0
      mixture := 0
      propeller := 0 } }

/-- A gain-2 component from the throttle command to the elevator
position. -/
def c1Gain2 : GainComponent :=
  { name := "ga", inputs := ["fcs/throttle-cmd-norm"],
    output := "fcs/elevator-pos-rad", enabled := true, gain := 2 }

/-- A gain-3 component writing the same output property as `c1Gain2`. -/
def c1Gain3 : GainComponent :=
  { name := "gb", inputs := ["fcs/throttle-cmd-norm"],
    output := "fcs/elevator-pos-rad", enabled := true, gain := 3 }

/-- Rate group "a" holding the gain-2 component. -/
def c1GroupA : RateGroupScheduler :=
  { name := "a", rateHz := 120, period := 1 / 120,
    components := [ComponentProcessor.gain c1Gain2], enabled := true }

/-- Rate group "b" holding the gain-3 component. -/
def c1GroupB : RateGroupScheduler :=
  { name := "b", rateHz := 120, period := 1 / 120,
    components := [ComponentProcessor.gain c1Gain3], enabled := true }

/-- The FCS of the determinism counterexample, parametrised by the
enumeration order of its two-entry rate-group map. -/
def c1FCS (groups : List (String × RateGroupScheduler)) : FlightControlSystem :=
  { name := "P-51D FCS", properties := ⟨[], []⟩, rateGroups := groups,
    defaultRate := 120, enabled := true }

/-- A `Function` with no operation field and no table. -/
def emptyFunction : Function :=
  { product := Option.none, difference := Option.none, sum := Option.none
    quotient := Option.none, pow := Option.none, abs := Option.none
    sin := Option.none, cos := Option.none, tan := Option.none
    asin := Option.none, acos := Option.none, atan := Option.none
    table := Option.none }

/-- A `Function` whose only set field is a product operation over the
given property references and literal values (no table, no
sub-operations). -/
def productOnlyFunction (property : List String) (value : List ℝ) : Function :=
  { emptyFunction with
    product := Option.some (Operation.mk property value
      Option.none Option.none Option.none Option.none Option.none) }

/-- The spec's T3 table: breakpoints (−10, 0, 10), values (0.1, 0, 0.1). -/
def t3Table : Table1D :=
  { indices := [-10, 0, 10], values := [0.1, 0, 0.1] }

/-- The propulsion system of the repository's own thrust-formula test at
1.0× reference RPM and 1.0× reference manifold pressure with running
factor 1. -/
def c5SystemRef1 : PropulsionSystem :=
  { NewPropulsionSystem with
    runningFactor := 1
    engine := { NewPropulsionSystem.engine with isRunning := true, manifoldPressure := 81 }
    propeller := { NewPropulsionSystem.propeller with rpm := 1260 } }

/-- The same at 2.0× reference RPM and 0.5× reference manifold
pressure. -/
def c5SystemRef2 : PropulsionSystem :=
  { NewPropulsionSystem with
    runningFactor := 1
    engine := { NewPropulsionSystem.engine with isRunning := true, manifoldPressure := 40.5 }
    propeller := { NewPropulsionSystem.propeller with rpm := 2520 } }

/-- The actuator of scenario (A1): rate limit 10, no lag, no hysteresis,
no bias, never executed before. -/
def a1Actuator : ActuatorComponent :=
  { name := "elevator-actuator", inputs := ["fcs/elevator-cmd-norm"],
    output := "fcs/elevator-pos-rad", enabled := true,
    rateLimit := Option.some 10, lag := 0, hysteresisWidth := 0, biasValue := 0,
    currentValue := 0, targetValue := 0, previousInput := 0, initialized := false }

/-- A store holding the (A1) step input: elevator command 1. -/
def a1Store : PropertyManager :=
  ⟨[("fcs/elevator-cmd-norm", 1)], []⟩

/-- State for the Adams-Bashforth counterexample: identity orientation,
unit forward body velocity, origin position. -/
def c7State : AircraftState :=
  { c1State with velocity := ⟨1, 0, 0⟩, controls := { c1State.controls with throttle := 0 } }

/-- Current derivatives for the Adams-Bashforth counterexample: position
derivative (1, 0, 0), everything else zero. -/
def c7Derivs : StateDerivatives :=
  { positionDot := ⟨1, 0, 0⟩, orientationDot := ⟨0, 0, 0, 0⟩,
    velocityDot := ⟨0, 0, 0⟩, angularRateDot := ⟨0, 0, 0⟩,
    altitudeDot := 0, massDot := 0 }

/-- Stored previous derivatives for the Adams-Bashforth counterexample:
all zero — in particular the previous position derivative is (0, 0, 0),
different from the current one. -/
def c7Prev : StateDerivatives :=
  { positionDot := ⟨0, 0, 0⟩, orientationDot := ⟨0, 0, 0, 0⟩,
    velocityDot := ⟨0, 0, 0⟩, angularRateDot := ⟨0, 0, 0⟩,
    altitudeDot := 0, massDot := 0 }


/-! ## Helper lemmas -/

@[simp] theorem okToList_ok (v : ℝ) : okToList (Except.ok v) = [v] := rfl

@[simp] theorem okToList_error (e : String) : okToList (Except.error e) = [] := rfl

/-- The property-collection loop appends exactly the values of the
present names, in order: it is `List.filterMap` of the lookup. -/
theorem collectPropertyValues_eq_filterMap (properties : List (String × ℝ)) :
    ∀ ps : List String,
      collectPropertyValues properties ps =
        ps.filterMap (fun p => lookupGo p properties)
  | [] => rfl
  | p :: ps => by
    cases h : lookupGo p properties <;>
      simp [collectPropertyValues, h, collectPropertyValues_eq_filterMap properties ps]

/-- Evaluating an operation node with no sub-operations and no table:
present properties (in order) and literal values are collected; an empty
collection errors, otherwise the reduction runs. -/
theorem evaluateOperation_no_sub (property : List String) (value : List ℝ)
    (opType : String) (properties : List (String × ℝ)) :
    evaluateOperation
        (Operation.mk property value Option.none Option.none Option.none
          Option.none Option.none) opType properties =
      (if property.filterMap (fun p => lookupGo p properties) ++ value = [] then
        Except.error "no values for operation"
      else Except.ok (performOperation opType
        (property.filterMap (fun p => lookupGo p properties) ++ value))) := by
  rw [evaluateOperation]
  simp [collectPropertyValues_eq_filterMap]

/-- Normalization always produces a quaternion of norm exactly 1:
the zero-norm guard yields the identity quaternion, and otherwise the
componentwise division scales the norm to 1. -/
theorem Quaternion.norm_Normalize (q : Quaternion) : q.Normalize.norm = 1 := by
  have hs : 0 ≤ q.w * q.w + q.x * q.x + q.y * q.y + q.z * q.z := by
    nlinarith [mul_self_nonneg q.w, mul_self_nonneg q.x, mul_self_nonneg q.y,
      mul_self_nonneg q.z]
  simp only [Quaternion.Normalize]
  split_ifs with h
  · simp [Quaternion.norm]
  · have hn : 0 < q.norm := lt_of_le_of_ne (Real.sqrt_nonneg _) (Ne.symm h)
    simp only [Quaternion.norm] at hn h ⊢
    have key : q.w / Real.sqrt (q.w * q.w + q.x * q.x + q.y * q.y + q.z * q.z) *
          (q.w / Real.sqrt (q.w * q.w + q.x * q.x + q.y * q.y + q.z * q.z)) +
        q.x / Real.sqrt (q.w * q.w + q.x * q.x + q.y * q.y + q.z * q.z) *
          (q.x / Real.sqrt (q.w * q.w + q.x * q.x + q.y * q.y + q.z * q.z)) +
        q.y / Real.sqrt (q.w * q.w + q.x * q.x + q.y * q.y + q.z * q.z) *
          (q.y / Real.sqrt (q.w * q.w + q.x * q.x + q.y * q.y + q.z * q.z)) +
        q.z / Real.sqrt (q.w * q.w + q.x * q.x + q.y * q.y + q.z * q.z) *
          (q.z / Real.sqrt (q.w * q.w + q.x * q.x + q.y * q.y + q.z * q.z)) =
        (q.w * q.w + q.x * q.x + q.y * q.y + q.z * q.z) /
          Real.sqrt (q.w * q.w + q.x * q.x + q.y * q.y + q.z * q.z) ^ 2 := by
      field_simp
    rw [key, Real.sqrt_div hs, Real.sqrt_sq hn.le, div_self h]

@[simp] theorem consumeFuel_engine (ps : PropulsionSystem) (b : ℝ) :
    (ps.consumeFuel b).engine = ps.engine := rfl

@[simp] theorem consumeFuel_propeller (ps : PropulsionSystem) (b : ℝ) :
    (ps.consumeFuel b).propeller = ps.propeller := rfl

@[simp] theorem updatePropeller_engine (ps : PropulsionSystem) (dt : ℝ) :
    (ps.updatePropeller dt).engine = ps.engine := rfl

@[simp] theorem updateEngine_runningFactor (ps : PropulsionSystem) (dt : ℝ) :
    (ps.updateEngine dt).runningFactor = ps.runningFactor := rfl

@[simp] theorem updateEngine_maxThrust (ps : PropulsionSystem) (dt : ℝ) :
    (ps.updateEngine dt).maxThrust = ps.maxThrust := rfl

@[simp] theorem updateEngine_referenceRPM (ps : PropulsionSystem) (dt : ℝ) :
    (ps.updateEngine dt).referenceRPM = ps.referenceRPM := rfl

@[simp] theorem updateEngine_referenceMAP (ps : PropulsionSystem) (dt : ℝ) :
    (ps.updateEngine dt).referenceMAP = ps.referenceMAP := rfl

/-- The engine-RPM copy at the end of `updateEngine`: the propeller RPM
mirrors the just-computed engine RPM. -/
@[simp] theorem updateEngine_propeller_rpm (ps : PropulsionSystem) (dt : ℝ) :
    (ps.updateEngine dt).propeller.rpm = (ps.updateEngine dt).engine.rpm := rfl

@[simp] theorem updateFuelConsumption_engine (ps : PropulsionSystem) (dt : ℝ) :
    (ps.updateFuelConsumption dt).engine = ps.engine := by
  rw [PropulsionSystem.updateFuelConsumption]; split <;> rfl

@[simp] theorem updateFuelConsumption_propeller (ps : PropulsionSystem) (dt : ℝ) :
    (ps.updateFuelConsumption dt).propeller = ps.propeller := by
  rw [PropulsionSystem.updateFuelConsumption]; split <;> rfl

@[simp] theorem updateFuelConsumption_references (ps : PropulsionSystem) (dt : ℝ) :
    (ps.updateFuelConsumption dt).maxThrust = ps.maxThrust ∧
    (ps.updateFuelConsumption dt).referenceRPM = ps.referenceRPM ∧
    (ps.updateFuelConsumption dt).referenceMAP = ps.referenceMAP := by
  rw [PropulsionSystem.updateFuelConsumption]; split <;> exact ⟨rfl, rfl, rfl⟩

/-! ## Claim theorems -/

/-- Claim C10: Normalization is guarded against division by zero:
`Vector3.Normalize` of the zero vector is the zero vector,
`Quaternion.Normalize` of the zero quaternion is the identity quaternion
`(w=1, x=y=z=0)`, and every other input is returned scaled by the
reciprocal of its norm. -/
theorem Normalize_zero_guard :
    (Vector3.Normalize ⟨0, 0, 0⟩ = (⟨0, 0, 0⟩ : Vector3)) ∧
    (Quaternion.Normalize ⟨0, 0, 0, 0⟩ = (⟨1, 0, 0, 0⟩ : Quaternion)) ∧
    (∀ v : Vector3, v ≠ ⟨0, 0, 0⟩ → v.Normalize = v.Scale (1 / v.Magnitude)) ∧
    (∀ q : Quaternion, q ≠ ⟨0, 0, 0, 0⟩ → q.Normalize = q.Scale (1 / q.norm)) := by
  refine ⟨?_, ?_, ?_, ?_⟩
  · simp [Vector3.Normalize, Vector3.Magnitude]
  · simp [Quaternion.Normalize, Quaternion.norm]
  · intro v hv
    have hm : v.Magnitude ≠ 0 := by
      intro h0
      apply hv
      have hs : 0 ≤ v.x * v.x + v.y * v.y + v.z * v.z := by
        nlinarith [mul_self_nonneg v.x, mul_self_nonneg v.y, mul_self_nonneg v.z]
      have hsum : v.x * v.x + v.y * v.y + v.z * v.z = 0 :=
        (Real.sqrt_eq_zero hs).mp h0
      have hx : v.x = 0 := by nlinarith
      have hy : v.y = 0 := by nlinarith
      have hz : v.z = 0 := by nlinarith
      cases v
      simp_all
    simp [Vector3.Normalize, hm, Vector3.Scale, mul_one_div, div_eq_mul_inv]
  · intro q hq
    have hm : q.norm ≠ 0 := by
      intro h0
      apply hq
      have hs : 0 ≤ q.w * q.w + q.x * q.x + q.y * q.y + q.z * q.z := by
        nlinarith [mul_self_nonneg q.w, mul_self_nonneg q.x, mul_self_nonneg q.y,
          mul_self_nonneg q.z]
      have hsum : q.w * q.w + q.x * q.x + q.y * q.y + q.z * q.z = 0 :=
        (Real.sqrt_eq_zero hs).mp h0
      have hw : q.w = 0 := by nlinarith
      have hx : q.x = 0 := by nlinarith
      have hy : q.y = 0 := by nlinarith
      have hz : q.z = 0 := by nlinarith
      cases q
      simp_all
    simp [Quaternion.Normalize, hm, Quaternion.Scale, mul_one_div, div_eq_mul_inv]

/-- Claim C8: Every integrator (Euler, Runge-Kutta 4, Adams-Bashforth 2)
returns a state whose orientation quaternion has norm within 10⁻⁶ of 1:
each of them renormalizes the orientation after its update (and the
normalized norm is exactly 1 in real arithmetic). -/
theorem integrate_orientation_unit_norm :
    (∀ (state : AircraftState) (d : StateDerivatives) (dt : ℝ),
      |((EulerIntegrator.Integrate state d dt).orientation).norm - 1| ≤ 1e-6) ∧
    (∀ (state : AircraftState) (d : StateDerivatives) (dt : ℝ),
      |((RungeKutta4Integrator.Integrate state d dt).orientation).norm - 1| ≤ 1e-6) ∧
    (∀ (ab : AdamsBashforth2Integrator) (state : AircraftState)
        (d : StateDerivatives) (dt : ℝ),
      |((AdamsBashforth2Integrator.Integrate ab state d dt).2.orientation).norm - 1|
        ≤ 1e-6) := by
  refine ⟨?_, ?_, ?_⟩
  · intro state d dt
    simp [EulerIntegrator.Integrate, Quaternion.norm_Normalize]
    norm_num
  · intro state d dt
    simp [RungeKutta4Integrator.Integrate, Quaternion.norm_Normalize]
    norm_num
  · intro ab state d dt
    rcases ab with ⟨_ | prev⟩ <;>
      simp [AdamsBashforth2Integrator.Integrate, EulerIntegrator.Integrate,
        Quaternion.norm_Normalize] <;> norm_num

/-- Claim C9: After every `PropulsionSystem.Update`, the propeller thrust is
non-negative (the formula's value is clamped at 0) and the induced
velocity equals `√(thrust/0.5)` for positive thrust and 0 otherwise — in
particular it is non-negative. -/
theorem propulsion_update_nonneg_invariants :
    ∀ (ps : PropulsionSystem) (throttleInput dt : ℝ),
      0 ≤ (ps.Update throttleInput dt).propeller.thrust ∧
      (ps.Update throttleInput dt).propeller.inducedVelocity =
        (if 0 < (ps.Update throttleInput dt).propeller.thrust then
          Real.sqrt ((ps.Update throttleInput dt).propeller.thrust / 0.5) else 0) ∧
      0 ≤ (ps.Update throttleInput dt).propeller.inducedVelocity := by
  intro ps throttleInput dt
  have hp : (ps.Update throttleInput dt).propeller =
      ((({ ps with engine :=
        { ps.engine with throttlePosition := max 0 (min 1 throttleInput) } }).updateEngine
          dt).updatePropeller dt).propeller := by
    simp only [PropulsionSystem.Update, updateFuelConsumption_propeller]
  rw [hp]
  refine ⟨?_, ?_, ?_⟩
  · simp only [PropulsionSystem.updatePropeller]
    exact le_max_left _ _
  · simp only [PropulsionSystem.updatePropeller]
  · simp only [PropulsionSystem.updatePropeller]
    split_ifs with h
    · exact Real.sqrt_nonneg _
    · exact le_rfl


/-- Claim C2, amended: When an expression node's value set is collected,
each referenced property name *present* in the store contributes its
value at its position in order, while an absent name is *skipped* — it
contributes nothing (rather than a 0.0) — and no error is raised for it;
the collected list is the present properties followed by the literal
values, an empty collection errors and a non-empty one is reduced. -/
theorem evaluateOperation_absent_property_skipped
    (property : List String) (value : List ℝ) (opType : String)
    (properties : List (String × ℝ)) :
    evaluateOperation
        (Operation.mk property value Option.none Option.none Option.none
          Option.none Option.none) opType properties =
      (if property.filterMap (fun p => lookupGo p properties) ++ value = [] then
        Except.error "no values for operation"
      else Except.ok (performOperation opType
        (property.filterMap (fun p => lookupGo p properties) ++ value))) :=
  evaluateOperation_no_sub property value opType properties

/-- Claim C2, counterexample to the claim as stated: A product node with
literal values [2, 3] and one property reference absent from the store
evaluates to 6 — the absent property contributed nothing — not to 0 as it
would if the absent property contributed the value 0.0. -/
theorem evaluateOperation_absent_property_counterexample :
    evaluateOperation
        (Operation.mk ["aero/ref-area"] [2, 3] Option.none Option.none
          Option.none Option.none Option.none) "product" [] = Except.ok 6 ∧
    evaluateOperation
        (Operation.mk ["aero/ref-area"] [2, 3] Option.none Option.none
          Option.none Option.none Option.none) "product" [] ≠ Except.ok 0 := by
  have h : evaluateOperation
      (Operation.mk ["aero/ref-area"] [2, 3] Option.none Option.none
        Option.none Option.none Option.none) "product" [] = Except.ok 6 := by
    rw [evaluateOperation]
    simp [collectPropertyValues, lookupGo, performOperation]
    norm_num
  refine ⟨h, ?_⟩
  rw [h]
  simp

/-- Claim C3, amended: `EvaluateFunction` fails with the no-operation
error only when none of the twelve operation fields (and no table) is
present; but an operation field being present does not preclude an error:
the selected operation fails with "no values for operation" exactly when
its collected value set is empty — in particular a product node with an
empty value set errors instead of evaluating to the empty product 1. -/
theorem evaluateFunction_error_characterization :
    (∀ properties : List (String × ℝ),
      EvaluateFunction emptyFunction properties =
        Except.error "no valid operation in function") ∧
    (∀ (property : List String) (value : List ℝ) (properties : List (String × ℝ)),
      EvaluateFunction (productOnlyFunction property value) properties =
          Except.error "no values for operation" ↔
        property.filterMap (fun p => lookupGo p properties) ++ value = []) := by
  constructor
  · intro properties
    simp [EvaluateFunction, emptyFunction]
  · intro property value properties
    have hf : EvaluateFunction (productOnlyFunction property value) properties =
        evaluateOperation
          (Operation.mk property value Option.none Option.none Option.none
            Option.none Option.none) "product" properties := by
      simp [EvaluateFunction, productOnlyFunction, emptyFunction]
    rw [hf, evaluateOperation_no_sub]
    split_ifs with h
    · simp [h]
    · simp [h]

/-- Claim C3, counterexample to the claim as stated: A function whose
product operation field *is* set, but whose operation collects no values,
returns an error (and in particular does not evaluate to the empty
product 1), refuting "errors iff no operation field is set". -/
theorem evaluateFunction_empty_product_counterexample :
    EvaluateFunction (productOnlyFunction [] []) [] =
      Except.error "no values for operation" ∧
    EvaluateFunction (productOnlyFunction [] []) [] ≠ Except.ok 1 := by
  have h : EvaluateFunction (productOnlyFunction [] []) [] =
      Except.error "no values for operation" := by
    have hf : EvaluateFunction (productOnlyFunction [] []) [] =
        evaluateOperation
          (Operation.mk [] [] Option.none Option.none Option.none
            Option.none Option.none) "product" [] := by
      simp [EvaluateFunction, productOnlyFunction, emptyFunction]
    rw [hf, evaluateOperation_no_sub]
    simp
  refine ⟨h, ?_⟩
  rw [h]
  simp


/-- Claim C6: On each actuator execution the stages are applied in order —
read input, add bias, hysteresis, rate limiting, first-order lag — and
the result is written to the output property: `Execute` computes exactly
the composition of the specification's stage functions, applied to the
zero-initialised state on the first execution. -/
theorem actuator_execute_stage_order
    (ac : ActuatorComponent) (properties : PropertyManager) (dt : ℝ)
    (hen : ac.enabled = true) (hin : ac.inputs ≠ []) (hdt : 0 ≤ dt) :
    (ac.Execute properties dt).2.2 =
      lagStage ac.lag dt (if ac.initialized then ac.currentValue else 0)
        (rateLimitStage ac.rateLimit dt (if ac.initialized then ac.targetValue else 0)
          (hysteresisStage ac.hysteresisWidth ac.previousInput
            (properties.Get (ac.inputs.headD "") + ac.biasValue))) ∧
    (ac.Execute properties dt).2.1 =
      (if ac.output = "" then properties
       else properties.Set ac.output ((ac.Execute properties dt).2.2)) := by
  have hcond : ¬(ac.enabled = false ∨ ac.inputs = []) := by simp [hen, hin]
  have hrl : ∀ x t0 : ℝ,
      (match ac.rateLimit with
        | Option.some rl =>
          if 0 < rl then
            if t0 + rl * dt < x then t0 + rl * dt
            else if x < t0 - rl * dt then t0 - rl * dt
            else x
          else x
        | Option.none => x) = rateLimitStage ac.rateLimit dt t0 x := by
    intro x t0
    rcases ac.rateLimit with _ | rl
    · rfl
    · simp only [rateLimitStage]
      by_cases hpos : 0 < rl
      · have hm : 0 ≤ rl * dt := mul_nonneg hpos.le hdt
        simp only [if_pos hpos]
        split_ifs with h1 h2
        · rw [min_eq_left h1.le, max_eq_right (by linarith)]
        · rw [min_eq_right (by linarith), max_eq_left (by linarith)]
        · rw [min_eq_right (by linarith), max_eq_right (by linarith)]
      · simp [hpos]
  constructor
  · simp only [ActuatorComponent.Execute, if_neg hcond, hysteresisStage, lagStage, hrl]
  · simp only [ActuatorComponent.Execute, if_neg hcond]

/-- Claim C6 witness, scenario A1: With rate limit 10, dt = 0.05, no lag
and no hysteresis, an input step from 0 to 1 produces output 0.5 at the
first execution. -/
theorem actuator_step_witness :
    a1Actuator.enabled = true ∧ a1Actuator.inputs ≠ [] ∧ (0 : ℝ) ≤ 1 / 20 ∧
    (a1Actuator.Execute a1Store (1 / 20)).2.2 = 1 / 2 := by
  have hin : a1Actuator.inputs ≠ [] := by simp [a1Actuator]
  have h := (actuator_execute_stage_order a1Actuator a1Store (1 / 20) rfl hin
    (by norm_num)).1
  refine ⟨rfl, hin, by norm_num, ?_⟩
  rw [h]
  simp [a1Actuator, a1Store, lagStage, rateLimitStage, hysteresisStage,
    PropertyManager.Get, lookupGo, max_def, min_def]
  norm_num


/-- Claim C5, amended: after *every* propulsion update — for every
system, throttle input and dt, hence also on the very update that starts
the engine — the thrust follows the reference-ratio formula with the
running factor *from before the update* (the source sets `RunningFactor`
only after `updatePropeller` has already consumed it):
`thrust = max 0 (factor_pre · (rpm/reference_rpm) · (map/reference_map) ·
max_thrust)` with the post-update RPM and manifold pressure.  The factor
the *next* update will consume is 1.0 when the engine ends this update
running and 0.3 when it ends it off (so factor_pre is 1.0 exactly when
the engine was already running before the update, and 0.3 otherwise,
including on the start-up update).  When the engine ends the update off,
thrust is 0 (its RPM is 0); and the two calibration checks of the
formula itself hold with factor 1 — thrust at 1.0× reference RPM and
1.0× reference MP is `max_thrust` (200 lb) within 10⁻³, and at 2.0×
reference RPM and 0.5× reference MP it is 1.0× max within 10⁻³. -/
theorem propulsion_thrust_formula :
    (∀ (ps : PropulsionSystem) (throttleInput dt : ℝ),
      (ps.Update throttleInput dt).propeller.thrust =
        max 0 (ps.runningFactor *
          ((ps.Update throttleInput dt).engine.rpm / ps.referenceRPM) *
          ((ps.Update throttleInput dt).engine.manifoldPressure / ps.referenceMAP) *
          ps.maxThrust)) ∧
    (∀ (ps : PropulsionSystem) (throttleInput dt : ℝ),
      (ps.Update throttleInput dt).runningFactor =
        (if (ps.Update throttleInput dt).engine.isRunning then (1 : ℝ) else 0.3)) ∧
    (∀ (ps : PropulsionSystem) (throttleInput dt : ℝ),
      ps.engine.isRunning = true → ps.runningFactor = 1 →
        (ps.Update throttleInput dt).propeller.thrust =
          max 0 (((ps.Update throttleInput dt).engine.rpm / ps.referenceRPM) *
            ((ps.Update throttleInput dt).engine.manifoldPressure / ps.referenceMAP) *
            ps.maxThrust)) ∧
    (∀ (ps : PropulsionSystem) (throttleInput dt : ℝ),
      (ps.Update throttleInput dt).engine.isRunning = false →
        (ps.Update throttleInput dt).propeller.thrust = 0) ∧
    |(c5SystemRef1.updatePropeller 0.01).propeller.thrust - 200| ≤ 1e-3 ∧
    |(c5SystemRef2.updatePropeller 0.01).propeller.thrust - 200| ≤ 1e-3 := by
  refine ⟨?_, ?_, ?_, ?_, ?_, ?_⟩
  · intro ps throttleInput dt
    simp only [PropulsionSystem.Update, updateFuelConsumption_propeller,
      updateFuelConsumption_engine, updatePropeller_engine]
    simp only [PropulsionSystem.updatePropeller, updateEngine_runningFactor,
      updateEngine_maxThrust, updateEngine_referenceRPM, updateEngine_referenceMAP,
      updateEngine_propeller_rpm]
  · intro ps throttleInput dt
    simp only [PropulsionSystem.Update, updateFuelConsumption_engine,
      updatePropeller_engine]
    norm_num
  · intro ps throttleInput dt h1 h2
    simp only [PropulsionSystem.Update, updateFuelConsumption_propeller,
      updateFuelConsumption_engine]
    simp [PropulsionSystem.updateEngine, PropulsionSystem.updatePropeller, h1, h2]
  · intro ps throttleInput dt h
    simp only [PropulsionSystem.Update, updateFuelConsumption_propeller,
      updateFuelConsumption_engine] at h ⊢
    cases hb : ps.engine.isRunning
    · by_cases hc : (0.1 : ℝ) < max 0 (min 1 throttleInput)
      · exfalso
        simp [PropulsionSystem.updateEngine, hb, hc] at h
      · simp [PropulsionSystem.updateEngine, PropulsionSystem.updatePropeller,
          hb, hc]
    · exfalso
      simp [PropulsionSystem.updateEngine, hb] at h
  · simp [c5SystemRef1, NewPropulsionSystem, PropulsionSystem.updatePropeller, max_def]
    norm_num
  · simp [c5SystemRef2, NewPropulsionSystem, PropulsionSystem.updatePropeller, max_def]
    norm_num

/-- Claim C5, counterexample to the claim as stated: On the very update
that starts the engine (a fresh P-51D propulsion system given full
throttle), the engine ends the update running, yet the thrust was
computed with the stale pre-update factor 0.3: it equals 61000/567
(≈ 107.6 lb), not the value the claim's formula with running factor 1.0
would give (≈ 358.6 lb). -/
theorem propulsion_thrust_formula_counterexample :
    (NewPropulsionSystem.Update 1 (1 / 100)).engine.isRunning = true ∧
    (NewPropulsionSystem.Update 1 (1 / 100)).propeller.thrust = 61000 / 567 ∧
    (61000 / 567 : ℝ) ≠
      max 0 (((NewPropulsionSystem.Update 1 (1 / 100)).engine.rpm /
          NewPropulsionSystem.referenceRPM) *
        ((NewPropulsionSystem.Update 1 (1 / 100)).engine.manifoldPressure /
          NewPropulsionSystem.referenceMAP) *
        NewPropulsionSystem.maxThrust) := by
  have hrun : (NewPropulsionSystem.Update 1 (1 / 100)).engine.isRunning = true := by
    simp only [PropulsionSystem.Update, updateFuelConsumption_engine]
    simp [NewPropulsionSystem, PropulsionSystem.updateEngine,
      PropulsionSystem.updatePropeller]
    norm_num
  have hrpm : (NewPropulsionSystem.Update 1 (1 / 100)).engine.rpm = 3000 := by
    simp only [PropulsionSystem.Update, updateFuelConsumption_engine]
    simp [NewPropulsionSystem, PropulsionSystem.updateEngine,
      PropulsionSystem.updatePropeller]
    norm_num
  have hmap : (NewPropulsionSystem.Update 1 (1 / 100)).engine.manifoldPressure = 61 := by
    simp only [PropulsionSystem.Update, updateFuelConsumption_engine]
    simp [NewPropulsionSystem, PropulsionSystem.updateEngine,
      PropulsionSystem.updatePropeller]
    norm_num
  have hthrust : (NewPropulsionSystem.Update 1 (1 / 100)).propeller.thrust = 61000 / 567 := by
    simp only [PropulsionSystem.Update, updateFuelConsumption_propeller]
    simp [NewPropulsionSystem, PropulsionSystem.updateEngine,
      PropulsionSystem.updatePropeller, max_def]
    norm_num
  refine ⟨hrun, hthrust, ?_⟩
  rw [hrpm, hmap]
  simp [NewPropulsionSystem, max_def]
  norm_num


/-- Claim C7, amended: The Adams-Bashforth-2 integrator uses the Euler
method for its first step; on every subsequent step the body-frame
velocity and the angular rate advance by `y + ½·dt·(3·f_n − f_{n−1})`
with the current and stored previous derivatives — but the position does
*not*: it advances by a plain Euler step with the current earth-frame
velocity (the source substitutes the current velocity for the previous
one). -/
theorem ab2_integrate_characterization :
    (∀ (st : AircraftState) (d : StateDerivatives) (dt : ℝ),
      (AdamsBashforth2Integrator.Integrate ⟨Option.none⟩ st d dt).2 =
        EulerIntegrator.Integrate st d dt) ∧
    (∀ (prev : StateDerivatives) (st : AircraftState) (d : StateDerivatives) (dt : ℝ),
      (AdamsBashforth2Integrator.Integrate ⟨Option.some prev⟩ st d dt).2.velocity =
        st.velocity.Add
          (((d.velocityDot.Scale 3).Add (prev.velocityDot.Scale (-1))).Scale (dt / 2)) ∧
      (AdamsBashforth2Integrator.Integrate ⟨Option.some prev⟩ st d dt).2.angularRate =
        st.angularRate.Add
          (((d.angularRateDot.Scale 3).Add (prev.angularRateDot.Scale (-1))).Scale (dt / 2)) ∧
      (AdamsBashforth2Integrator.Integrate ⟨Option.some prev⟩ st d dt).2.position =
        st.position.Add ((st.orientation.RotateVector st.velocity).Scale dt)) := by
  refine ⟨fun st d dt => rfl, ?_⟩
  intro prev st d dt
  refine ⟨?_, ?_, ?_⟩ <;>
    · simp only [AdamsBashforth2Integrator.Integrate, Vector3.Add, Vector3.Scale,
        Vector3.mk.injEq]
      refine ⟨by ring, by ring, by ring⟩

/-- Claim C7, counterexample to the claim as stated: With identity
orientation, body velocity (1,0,0), current position derivative (1,0,0),
stored previous position derivative (0,0,0) and dt = 1, the code advances
the position X coordinate to 1 (a plain Euler step), while the claimed
formula `y + ½·dt·(3·f_n − f_{n−1})` would give 3/2. -/
theorem ab2_position_counterexample :
    (AdamsBashforth2Integrator.Integrate ⟨Option.some c7Prev⟩ c7State
        c7Derivs 1).2.position.x = 1 ∧
    c7State.position.x + 1 / 2 * 1 * (3 * c7Derivs.positionDot.x -
        c7Prev.positionDot.x) = 3 / 2 ∧
    (1 : ℝ) ≠ 3 / 2 := by
  refine ⟨?_, ?_, by norm_num⟩
  · simp [AdamsBashforth2Integrator.Integrate, c7State, c1State, c7Derivs, c7Prev,
      Quaternion.RotateVector, Quaternion.Multiply, Vector3.Add, Vector3.Scale]
    norm_num
  · simp [c7State, c1State, c7Derivs, c7Prev]
    norm_num


/-- Claim C1: Two enumerations of the *same* two-entry rate-group map (the
lists are permutations of each other, and every other input — initial
store, components, aircraft state, dt — is identical) produce different
property-store observations after one `FlightControlSystem.Execute`: the
shared output property ends at 3 under one enumeration and at 2 under the
other.  The Go source iterates `fcs.RateGroups`, a Go `map`, whose
iteration order is randomised by the runtime, so the store observation of
a run is not a function of the FCS configuration alone. -/
theorem fcs_execute_depends_on_rate_group_enumeration :
    List.Perm [("a", c1GroupA), ("b", c1GroupB)] [("b", c1GroupB), ("a", c1GroupA)] ∧
    ((c1FCS [("a", c1GroupA), ("b", c1GroupB)]).Execute c1State
        (1 / 100)).1.properties.Get "fcs/elevator-pos-rad" = 3 ∧
    ((c1FCS [("b", c1GroupB), ("a", c1GroupA)]).Execute c1State
        (1 / 100)).1.properties.Get "fcs/elevator-pos-rad" = 2 := by
  refine ⟨List.Perm.swap _ _ _, ?_, ?_⟩ <;>
  · simp [c1FCS, c1GroupA, c1GroupB, c1Gain2, c1Gain3, c1State,
      FlightControlSystem.Execute, PropertyManager.UpdateFromAircraftState,
      execRateGroups, RateGroupScheduler.Execute, execComponents,
      ComponentProcessor.Execute, GainComponent.Execute,
      PropertyManager.Set, PropertyManager.Get,
      PropertyManager.ApplyToAircraftState, insertGo, lookupGo,
      Vector3.Magnitude]


/-- The default argument of `getLastD` is irrelevant on a nonempty
list. -/
theorem getLastD_default_irrel : ∀ (b : ℝ) (t : List ℝ) (d1 d2 : ℝ),
    (b :: t).getLastD d1 = (b :: t).getLastD d2
  | _, [], _, _ => rfl
  | b, c :: t, d1, d2 => by
    simp only [List.getLastD_cons]

/-- Dropping the head of a two-element-or-longer list keeps its
`getLastD`. -/
theorem getLastD_cons_cons (a b : ℝ) (t : List ℝ) (d : ℝ) :
    (a :: b :: t).getLastD d = (b :: t).getLastD d := by
  rw [List.getLastD_cons]
  exact getLastD_default_irrel b t a d

/-- The last element (under a default) of a nonempty list is a member. -/
theorem getLastD_mem : ∀ (l : List ℝ) (d : ℝ), l ≠ [] → l.getLastD d ∈ l
  | [], _, h => absurd rfl h
  | [a], _, _ => by simp [List.getLastD_cons]
  | a :: b :: t, d, _ => by
    rw [getLastD_cons_cons]
    exact List.mem_cons_of_mem a (getLastD_mem (b :: t) d (by simp))

/-- The bracketing scan of `interpolate1D`, characterised: on lists of
equal length with non-decreasing breakpoints, if `x` lies strictly
between the head and the last breakpoint, the scan stops at a bracketing
pair with strictly increasing endpoints and returns the linear
interpolation there. -/
theorem interp1DLoop_bracket (x lastVal : ℝ) :
    ∀ is vs : List ℝ, is.length = vs.length → is.Chain' (· ≤ ·) →
      is.headD 0 < x → x < is.getLastD 0 →
      ∃ i, i + 1 < is.length ∧
        is.getD i 0 ≤ x ∧ x ≤ is.getD (i + 1) 0 ∧
        is.getD i 0 < is.getD (i + 1) 0 ∧
        interp1DLoop x lastVal is vs =
          vs.getD i 0 + (x - is.getD i 0) / (is.getD (i + 1) 0 - is.getD i 0) *
            (vs.getD (i + 1) 0 - vs.getD i 0)
  | [], _, _, _, hh, hl => by simp at hh hl; linarith
  | [a], _, _, _, hh, hl => by simp at hh hl; linarith
  | a :: b :: t, [], hlen, _, _, _ => by simp at hlen
  | a :: b :: t, [w], hlen, _, _, _ => by simp at hlen
  | a :: b :: t, w :: u :: r, hlen, hchain, hh, hl => by
    simp only [List.headD_cons] at hh
    by_cases hbr : a ≤ x ∧ x ≤ b
    · refine ⟨0, by simp, by simpa using hbr.1, by simpa using hbr.2, ?_, ?_⟩
      · simpa using lt_of_lt_of_le hh hbr.2
      · simp [interp1DLoop, hbr]
    · have hb : b < x := by
        rcases not_and_or.mp hbr with h | h
        · exact absurd hh.le h
        · exact lt_of_not_le h
      obtain ⟨i, h1, h2, h3, h4, h5⟩ :=
        interp1DLoop_bracket x lastVal (b :: t) (u :: r)
          (by simpa using hlen) (List.chain'_cons.mp hchain).2
          (by simpa using hb) (by rwa [getLastD_cons_cons] at hl)
      refine ⟨i + 1, by simpa using Nat.succ_lt_succ h1, ?_, ?_, ?_, ?_⟩
      · simpa [List.getD_cons_succ] using h2
      · simpa [List.getD_cons_succ] using h3
      · simpa [List.getD_cons_succ] using h4
      · rw [interp1DLoop, if_neg hbr]
        simpa [List.getD_cons_succ] using h5

/-- The bracketing scan stays inside any interval containing all table
values and the fall-through value, for non-decreasing breakpoints. -/
theorem interp1DLoop_bounds (x lo hi : ℝ) :
    ∀ (is vs : List ℝ) (lastVal : ℝ), is.Chain' (· ≤ ·) →
      (∀ v ∈ vs, lo ≤ v ∧ v ≤ hi) → lo ≤ lastVal → lastVal ≤ hi →
      lo ≤ interp1DLoop x lastVal is vs ∧ interp1DLoop x lastVal is vs ≤ hi
  | i0 :: i1 :: irest, v0 :: v1 :: vrest, lastVal, hchain, hv, hlo, hhi => by
    by_cases hbr : i0 ≤ x ∧ x ≤ i1
    · rw [interp1DLoop, if_pos hbr]
      have hw := hv v0 (by simp)
      have hu := hv v1 (by simp)
      by_cases hz : i1 - i0 = 0
      · rw [hz, div_zero, zero_mul, add_zero]
        exact hw
      · have hle : i0 ≤ i1 := (List.chain'_cons.mp hchain).1
        have hlt : i0 < i1 := lt_of_le_of_ne hle fun h => hz (by rw [h, sub_self])
        have ht0 : 0 ≤ (x - i0) / (i1 - i0) :=
          div_nonneg (by linarith [hbr.1]) (by linarith)
        have ht1 : (x - i0) / (i1 - i0) ≤ 1 :=
          (div_le_one (by linarith)).mpr (by linarith [hbr.2])
        constructor
        · nlinarith [mul_nonneg (by linarith : (0:ℝ) ≤ 1 - (x - i0) / (i1 - i0))
              (by linarith [hw.1] : (0:ℝ) ≤ v0 - lo),
            mul_nonneg ht0 (by linarith [hu.1] : (0:ℝ) ≤ v1 - lo)]
        · nlinarith [mul_nonneg (by linarith : (0:ℝ) ≤ 1 - (x - i0) / (i1 - i0))
              (by linarith [hw.2] : (0:ℝ) ≤ hi - v0),
            mul_nonneg ht0 (by linarith [hu.2] : (0:ℝ) ≤ hi - v1)]
    · rw [interp1DLoop, if_neg hbr]
      exact interp1DLoop_bounds x lo hi (i1 :: irest) (v1 :: vrest) lastVal
        (List.chain'_cons.mp hchain).2
        (fun v hv0 => hv v (by simp [hv0])) hlo hhi
  | [], _, lastVal, _, _, hlo, hhi => ⟨hlo, hhi⟩
  | [_], _, lastVal, _, _, hlo, hhi => ⟨hlo, hhi⟩
  | _ :: _ :: _, [], lastVal, _, _, hlo, hhi => ⟨hlo, hhi⟩
  | _ :: _ :: _, [_], lastVal, _, _, hlo, hhi => ⟨hlo, hhi⟩


/-- Claim C4: For every non-empty 1D table (parallel breakpoint/value arrays
of equal length, as the parser produces) with monotonically non-decreasing
breakpoints and every query `x`: the interpolation clamps to the first
stored value at or below the first breakpoint, clamps to the last stored
value at or above the last breakpoint, and otherwise returns the linear
interpolation at a bracketing breakpoint pair; and for any interval
`[lo, hi]` containing all stored values — in particular
`[min values, max values]` — the result stays inside it. -/
theorem interpolate1D_clamp_and_bounds
    (t : Table1D) (x lo hi : ℝ)
    (hne : t.indices ≠ [])
    (hlen : t.indices.length = t.values.length)
    (hmono : t.indices.Chain' (· ≤ ·))
    (hbounds : ∀ v ∈ t.values, lo ≤ v ∧ v ≤ hi) :
    (x ≤ t.indices.headD 0 → interpolate1D t x = t.values.headD 0) ∧
    (t.indices.headD 0 < x → t.indices.getLastD 0 ≤ x →
      interpolate1D t x = t.values.getLastD 0) ∧
    (t.indices.headD 0 < x → x < t.indices.getLastD 0 →
      ∃ i, i + 1 < t.indices.length ∧
        t.indices.getD i 0 ≤ x ∧ x ≤ t.indices.getD (i + 1) 0 ∧
        t.indices.getD i 0 < t.indices.getD (i + 1) 0 ∧
        interpolate1D t x =
          t.values.getD i 0 +
            (x - t.indices.getD i 0) /
              (t.indices.getD (i + 1) 0 - t.indices.getD i 0) *
              (t.values.getD (i + 1) 0 - t.values.getD i 0)) ∧
    lo ≤ interpolate1D t x ∧ interpolate1D t x ≤ hi := by
  rcases ht : t.indices with _ | ⟨i0, irest⟩
  · exact absurd ht hne
  rcases hv : t.values with _ | ⟨v0, vrest⟩
  · rw [ht, hv] at hlen
    simp at hlen
  have hlen' : (i0 :: irest).length = (v0 :: vrest).length := by
    rw [← ht, ← hv]
    exact hlen
  have hmono' : (i0 :: irest).Chain' (· ≤ ·) := ht ▸ hmono
  have hbounds' : ∀ v ∈ (v0 :: vrest), lo ≤ v ∧ v ≤ hi := hv ▸ hbounds
  have heval : interpolate1D t x =
      (if x ≤ i0 then v0
       else if (i0 :: irest).getLastD 0 ≤ x then (v0 :: vrest).getLastD 0
       else interp1DLoop x ((v0 :: vrest).getLastD 0) (i0 :: irest) (v0 :: vrest)) := by
    rw [interpolate1D, ht, hv]
  have hlastmem : (v0 :: vrest).getLastD 0 ∈ (v0 :: vrest) :=
    getLastD_mem (v0 :: vrest) 0 (by simp)
  have hlastb := hbounds' _ hlastmem
  refine ⟨?_, ?_, ?_, ?_⟩
  · intro hx
    rw [heval, if_pos (by simpa using hx)]
    simp
  · intro hx1 hx2
    have hx1' : i0 < x := by simpa using hx1
    rw [heval, if_neg (not_le.mpr hx1'), if_pos hx2]
  · intro hx1 hx2
    have hx1' : i0 < x := by simpa using hx1
    rw [heval, if_neg (not_le.mpr hx1'), if_neg (not_le.mpr hx2)]
    exact interp1DLoop_bracket x ((v0 :: vrest).getLastD 0) (i0 :: irest)
      (v0 :: vrest) hlen' hmono' (by simpa using hx1) hx2
  · rw [heval]
    split_ifs with h1 h2
    · exact hbounds' v0 (by simp)
    · exact hlastb
    · exact interp1DLoop_bounds x lo hi (i0 :: irest) (v0 :: vrest)
        ((v0 :: vrest).getLastD 0) hmono' hbounds' hlastb.1 hlastb.2

/-- Claim C4 witness, the T3 table of the spec: For the table with breakpoints
(−10, 0, 10) and values (0.1, 0, 0.1), every query — here x = 5 — lands
inside [0, 0.1], the range spanned by the stored values. -/
theorem interpolate1D_t3_witness :
    t3Table.indices ≠ [] ∧
    t3Table.indices.length = t3Table.values.length ∧
    t3Table.indices.Chain' (· ≤ ·) ∧
    (0 : ℝ) ≤ interpolate1D t3Table 5 ∧ interpolate1D t3Table 5 ≤ 0.1 := by
  have h1 : t3Table.indices ≠ [] := by simp [t3Table]
  have h2 : t3Table.indices.length = t3Table.values.length := by simp [t3Table]
  have h3 : t3Table.indices.Chain' (· ≤ ·) := by
    simp [t3Table, List.chain'_cons]
  have h4 : ∀ v ∈ t3Table.values, (0 : ℝ) ≤ v ∧ v ≤ 0.1 := by
    intro v hvv
    simp [t3Table] at hvv
    rcases hvv with h | h | h <;> rw [h] <;> norm_num
  have h := interpolate1D_clamp_and_bounds t3Table 5 0 0.1 h1 h2 h3 h4
  exact ⟨h1, h2, h3, h.2.2.2⟩

end

end CAMSim
